import Mathlib

/-!
Shallow embedding of the gateway/session core of `ccli.py` (FastAPI chatbot
with a per-client session registry, a WebSocket connection manager and HTTP
fallback endpoints), plus a spec-modelled resource-parameter extractor.

External effects (the Snowflake session, the MCP tool server and the agent
backend) are modelled by explicit parameters: an `InitEnv` describes the
outcome of one initialization attempt, and an `agent_call` function describes
what the agent returns for a given prompt.
-/

set_option autoImplicit false

namespace MCPGateway

/-- One entry of `ChatbotClient.chat_history`: `{"role": ..., "content": ...}`. -/
structure Message where
  role : String
  content : String
deriving DecidableEq

/-- Embeds `ChatbotConfig.__init__` defaults (ccli.py lines 185-217).
The default system prompt text is abbreviated; no claim depends on it. -/
structure ChatbotConfig where
  environment : String
  model_name : String
  cortex_function : String
  server_url : String
  server_name : String
  transport : String
  default_system_prompt : String
deriving DecidableEq

def ChatbotConfig.default : ChatbotConfig :=
  { environment := "aedl"
    model_name := "llama3.1-70b-elevance"
    cortex_function := "complete"
    server_url := "http://10.126.192.183:8000/sse"
    server_name := "DataFlyWheelServer"
    transport := "sse"
    default_system_prompt := "You are a helpful assistant with access to multiple tools." }

/-- State of one `ChatbotClient` (ccli.py lines 220-341). The external
handles (`mcp_client`, `sf_session`, `model`, `config`) are not observable by
any claim; the agent binding is modelled as an optional identity. -/
structure ChatbotClient where
  agent : Option Nat
  system_prompt : String
  chat_history : List Message
deriving DecidableEq

/-- `ChatbotClient.__init__` (lines 223-233): agent not yet created, system
prompt taken from the config default, empty history. -/
def ChatbotClient.new (config : ChatbotConfig) : ChatbotClient :=
  { agent := none
    system_prompt := config.default_system_prompt
    chat_history := [] }

/-- Outcome of one external initialization attempt (`ChatbotClient.initialize`,
lines 260-299): whether MCP client and agent construction succeed, what prompt
(if any) the server returns for `base-system-prompt`, and the identity of the
agent object that would be created. -/
structure InitEnv where
  init_ok : Bool
  server_prompt : Option String
  agent_id : Nat
deriving DecidableEq

/-- `ChatbotClient.initialize` (lines 260-299): on success, sets `self.agent`
and possibly replaces `self.system_prompt` with the server-provided prompt,
returning `True`; on any exception returns `False` leaving the modelled
fields unchanged. -/
def initialize_client (c : ChatbotClient) (env : InitEnv) : Bool × ChatbotClient :=
  if env.init_ok then
    let c1 : ChatbotClient := { c with agent := some env.agent_id }
    match env.server_prompt with
    | some p => (true, { c1 with system_prompt := p })
    | none => (true, c1)
  else (false, c)

/-- Result of one `self.agent.ainvoke` call together with the response
extraction (lines 325-328): either the extracted answer text or the text of
the raised exception. -/
inductive AgentOutcome where
  | success (text : String)
  | failure (err : String)
deriving DecidableEq

/-- The prompt composition of `get_response` (line 322):
`self.system_prompt + "\n\nUser Query: " + user_input`. -/
def full_prompt (c : ChatbotClient) (user_input : String) : String :=
  c.system_prompt ++ "\n\nUser Query: " ++ user_input

/-- `ChatbotClient.get_response` (lines 301-341). `agent_call` models the
external agent: what `ainvoke` plus extraction yields for the prompt actually
sent. Returns the text handed back to the caller and the updated client. -/
def get_response (c : ChatbotClient) (user_input : String)
    (agent_call : String → AgentOutcome) : String × ChatbotClient :=
  match c.agent with
  | none => ("Error: Agent not initialized. Please try again.", c)
  | some _ =>
    let history1 := c.chat_history ++ [⟨"user", user_input⟩]
    match agent_call (full_prompt c user_input) with
    | AgentOutcome.success bot_response =>
        (bot_response,
         { c with chat_history := history1 ++ [⟨"assistant", bot_response⟩] })
    | AgentOutcome.failure e =>
        let error_message := "Error processing your request: " ++ e
        (error_message,
         { c with chat_history := history1 ++ [⟨"assistant", error_message⟩] })

/-! Python `dict` operations used by the global registries, as association
lists: lookup, assignment (which shadows any previous binding) and `del`. -/

def dictLookup {α : Type} : List (String × α) → String → Option α
  | [], _ => none
  | (k, v) :: rest, key => if key = k then some v else dictLookup rest key

def dictErase {α : Type} : List (String × α) → String → List (String × α)
  | [], _ => []
  | (k, v) :: rest, key =>
      if k = key then dictErase rest key else (k, v) :: dictErase rest key

def dictInsert {α : Type} (st : List (String × α)) (key : String) (v : α) :
    List (String × α) :=
  (key, v) :: dictErase st key

/-- The global `chat_clients` dict (line 393). -/
abbrev Registry := List (String × ChatbotClient)

/-- `get_chat_client` (lines 756-774): return the stored client if present,
otherwise build and initialize a fresh one; on initialization failure raise
(`Except.error`) without storing anything. The returned registry is the
state of `chat_clients` after the call. -/
def get_chat_client (env : InitEnv) (client_id : String) (st : Registry) :
    Except String ChatbotClient × Registry :=
  match dictLookup st client_id with
  | some client => (Except.ok client, st)
  | none =>
      let config := ChatbotConfig.default
      let client := ChatbotClient.new config
      let r := initialize_client client env
      if r.1 then (Except.ok r.2, dictInsert st client_id r.2)
      else (Except.error "Failed to initialize chatbot client", st)

/-- The client a fresh `get_chat_client` construction would store. -/
def freshClient (env : InitEnv) : ChatbotClient :=
  (initialize_client (ChatbotClient.new ChatbotConfig.default) env).2

/-- `cleanup_chat_client` (lines 777-783): close and delete the stored client
if present; a no-op for an absent id. -/
def cleanup_chat_client (client_id : String) (st : Registry) : Registry :=
  if (dictLookup st client_id).isSome then dictErase st client_id else st

/-- `ConnectionManager` (lines 364-381); a WebSocket handle is modelled by a
numeric identity. -/
structure ConnectionManager where
  active_connections : List (String × Nat)
deriving DecidableEq

/-- `ConnectionManager.connect` (lines 368-370): accept and store the channel,
replacing any prior entry for the id. -/
def ConnectionManager.connect (m : ConnectionManager) (websocket : Nat)
    (client_id : String) : ConnectionManager :=
  ⟨dictInsert m.active_connections client_id websocket⟩

/-- `ConnectionManager.disconnect` (lines 372-374): delete the entry if
present. -/
def ConnectionManager.disconnect (m : ConnectionManager) (client_id : String) :
    ConnectionManager :=
  if (dictLookup m.active_connections client_id).isSome then
    ⟨dictErase m.active_connections client_id⟩
  else m

/-- The JSON frame pushed by `ConnectionManager.send_message`. -/
structure Frame where
  message : String
  sender : String
deriving DecidableEq

/-- `ConnectionManager.send_message` (lines 376-381): deliver the frame to the
registered channel, or do nothing when none is registered. The manager state
is never modified; the result is the delivery (target handle and frame), if
any. -/
def ConnectionManager.send_message (m : ConnectionManager) (message : String)
    (client_id : String) : Option (Nat × Frame) :=
  match dictLookup m.active_connections client_id with
  | some ws => some (ws, { message := message, sender := "bot" })
  | none => none

/-- Body of the `/api/send_message` response. -/
inductive SendBody where
  | response (text : String)
  | error (text : String)
deriving DecidableEq

/-- `send_message` route (lines 791-811): client id is the requesting host;
get-or-create the client, run `get_response`, answer 200 with the response
text; on an exception from `get_chat_client` answer 500 with the error text
(`get_response` itself never raises). -/
def send_message (env : InitEnv) (agent_call : String → AgentOutcome)
    (host message : String) (st : Registry) : (Nat × SendBody) × Registry :=
  let client_id := host
  match get_chat_client env client_id st with
  | (Except.ok client, st1) =>
      let r := get_response client message agent_call
      ((200, SendBody.response r.1), dictInsert st1 client_id r.2)
  | (Except.error e, st1) => ((500, SendBody.error e), st1)

/-- `get_history` route (lines 813-827): client id is the requesting host;
get-or-create the client and answer 200 with its history; on an exception
answer 200 with an empty history. -/
def get_history (env : InitEnv) (host : String) (st : Registry) :
    (Nat × List Message) × Registry :=
  match get_chat_client env host st with
  | (Except.ok client, st1) => ((200, client.chat_history), st1)
  | (Except.error _, st1) => ((200, ([] : List Message)), st1)

/-- Body of the `/api/reset` response. -/
inductive ResetBody where
  | success
  | error (text : String)
deriving DecidableEq

/-- `reset_chat` route (lines 829-850): client id is the requesting host;
get-or-create the client, set its `chat_history` to `[]`, answer 200; on an
exception from `get_chat_client` answer 500 with the error text. -/
def reset_chat (env : InitEnv) (host : String) (st : Registry) :
    (Nat × ResetBody) × Registry :=
  match get_chat_client env host st with
  | (Except.ok client, st1) =>
      ((200, ResetBody.success),
       dictInsert st1 host { client with chat_history := [] })
  | (Except.error e, st1) => ((500, ResetBody.error e), st1)

/-- The `Closing` path of `websocket_endpoint` (lines 885-897): on disconnect
(or any error) run `manager.disconnect(client_id)` and then
`cleanup_chat_client(client_id)` for the path-supplied id. -/
def websocket_disconnect (m : ConnectionManager) (st : Registry)
    (client_id : String) : ConnectionManager × Registry :=
  (m.disconnect client_id, cleanup_chat_client client_id st)

/-! Iterated successful `respond` calls, and the shape of the transcript they
produce, for the history invariant. -/

/-- Run `get_response` once per `(input, answer)` pair, each call succeeding
with the given answer. -/
def run_success_calls : ChatbotClient → List (String × String) → ChatbotClient
  | c, [] => c
  | c, (input, answer) :: rest =>
      run_success_calls
        (get_response c input (fun _ => AgentOutcome.success answer)).2 rest

/-- The history entries appended by a sequence of successful calls. -/
def transcript : List (String × String) → List Message
  | [] => []
  | (input, answer) :: rest =>
      ⟨"user", input⟩ :: ⟨"assistant", answer⟩ :: transcript rest

/-- A history that is a sequence of user/assistant pairs: even length,
alternating roles starting with "user". -/
def isUserAssistantPairs : List Message → Bool
  | [] => true
  | u :: a :: rest =>
      u.role == "user" && a.role == "assistant" && isUserAssistantPairs rest
  | _ => false

/-! Resource-parameter extraction (spec-modelled; the code is absent from
src/). -/

def braceOpen : Char := Char.ofNat 123

def braceClose : Char := Char.ofNat 125

/-- Modelled from the spec: the tool-catalog client's extraction of parameter
names from a parametric resource name, absent from src/. Scans left to right;
an opening brace starts collecting a name, the matching closing brace emits
it; a malformed name is silently truncated at the first unmatched brace. -/
def extractParamsLoop : List Char → Option (List Char) → List String
  | [], _ => []
  | c :: rest, none =>
      if c = braceOpen then extractParamsLoop rest (some [])
      else extractParamsLoop rest none
  | c :: rest, some acc =>
      if c = braceClose then
        String.mk acc.reverse :: extractParamsLoop rest none
      else extractParamsLoop rest (some (c :: acc))

/-- Modelled from the spec: ordered parameter names of a parametric resource
name. -/
def extract_parameters (name : String) : List String :=
  extractParamsLoop name.toList none

/-! Concrete inputs used by witnesses and counterexamples. -/

def demoEnv : InitEnv := { init_ok := true, server_prompt := none, agent_id := 0 }

def badEnv : InitEnv := { init_ok := false, server_prompt := none, agent_id := 0 }

def demoClient : ChatbotClient := freshClient demoEnv

def demoHistClient : ChatbotClient :=
  { demoClient with chat_history := [⟨"user", "2+2"⟩, ⟨"assistant", "4"⟩] }

def demoManager : ConnectionManager := ⟨[("c1", 7)]⟩

def demoRegistry : Registry := [("c1", demoHistClient)]

/-! Dictionary lemmas. -/

theorem dictLookup_erase_self {α : Type} (st : List (String × α)) (key : String) :
    dictLookup (dictErase st key) key = none := by
  induction st with
  | nil => rfl
  | cons p rest ih =>
      obtain ⟨k, v⟩ := p
      by_cases hk : k = key
      · simpa [dictErase, hk] using ih
      · simp [dictErase, hk, dictLookup, Ne.symm hk, ih]

theorem dictLookup_erase_ne {α : Type} (st : List (String × α)) (key k : String)
    (h : k ≠ key) : dictLookup (dictErase st key) k = dictLookup st k := by
  induction st with
  | nil => rfl
  | cons p rest ih =>
      obtain ⟨k0, v⟩ := p
      by_cases hk : k0 = key
      · have : k ≠ k0 := by
          intro he
          exact h (he.trans hk)
        simp [dictErase, hk, dictLookup, this, ih, h]
      · by_cases hkk : k = k0
        · simp [dictErase, hk, dictLookup, hkk]
        · simp [dictErase, hk, dictLookup, hkk, ih]

theorem dictLookup_insert_self {α : Type} (st : List (String × α)) (key : String)
    (v : α) : dictLookup (dictInsert st key v) key = some v := by
  simp [dictInsert, dictLookup]

theorem dictLookup_insert_ne {α : Type} (st : List (String × α)) (key k : String)
    (v : α) (h : k ≠ key) :
    dictLookup (dictInsert st key v) k = dictLookup st k := by
  simp [dictInsert, dictLookup, h, dictLookup_erase_ne st key k h]

theorem dictErase_erase {α : Type} (st : List (String × α)) (key : String) :
    dictErase (dictErase st key) key = dictErase st key := by
  induction st with
  | nil => rfl
  | cons p rest ih =>
      obtain ⟨k, v⟩ := p
      by_cases hk : k = key
      · simp [dictErase, hk, ih]
      · simp [dictErase, hk, ih]

/-! Helper lemmas about `get_chat_client`. -/

theorem get_chat_client_found (env : InitEnv) (cid : String) (st : Registry)
    (c : ChatbotClient) (h : dictLookup st cid = some c) :
    get_chat_client env cid st = (Except.ok c, st) := by
  simp [get_chat_client, h]

theorem get_chat_client_fresh (env : InitEnv) (cid : String) (st : Registry)
    (h : dictLookup st cid = none) (hok : env.init_ok = true) :
    get_chat_client env cid st =
      (Except.ok (freshClient env), dictInsert st cid (freshClient env)) := by
  have h1 : (initialize_client (ChatbotClient.new ChatbotConfig.default) env).1 = true := by
    simp only [initialize_client, hok, if_true]
    cases env.server_prompt <;> rfl
  simp [get_chat_client, h, h1, freshClient]

theorem get_chat_client_fail (env : InitEnv) (cid : String) (st : Registry)
    (h : dictLookup st cid = none) (hok : env.init_ok = false) :
    get_chat_client env cid st =
      (Except.error "Failed to initialize chatbot client", st) := by
  have h1 : (initialize_client (ChatbotClient.new ChatbotConfig.default) env).1 = false := by
    simp [initialize_client, hok]
  simp [get_chat_client, h, h1]

theorem freshClient_history (env : InitEnv) : (freshClient env).chat_history = [] := by
  simp only [freshClient, initialize_client]
  by_cases hok : env.init_ok
  · simp only [hok, if_true]
    cases env.server_prompt <;> rfl
  · simp [hok, ChatbotClient.new]

/-- After a successful call, the returned client is stored under the id. -/
theorem get_chat_client_stores (env : InitEnv) (cid : String) (st : Registry)
    (c : ChatbotClient)
    (h : (get_chat_client env cid st).1 = Except.ok c) :
    dictLookup (get_chat_client env cid st).2 cid = some c := by
  rcases hl : dictLookup st cid with _ | c0
  · by_cases hok : env.init_ok
    · rw [get_chat_client_fresh env cid st hl hok] at h ⊢
      simp only at h
      cases h
      exact dictLookup_insert_self st cid (freshClient env)
    · rw [get_chat_client_fail env cid st hl (by simpa using hok)] at h
      simp at h
  · rw [get_chat_client_found env cid st c0 hl] at h ⊢
    simp only at h
    cases h
    exact hl

/-- `get_chat_client` never touches registry entries for other ids. -/
theorem get_chat_client_frame (env : InitEnv) (cid k : String) (st : Registry)
    (h : k ≠ cid) :
    dictLookup (get_chat_client env cid st).2 k = dictLookup st k := by
  rcases hl : dictLookup st cid with _ | c0
  · by_cases hok : env.init_ok
    · rw [get_chat_client_fresh env cid st hl hok]
      exact dictLookup_insert_ne st cid k (freshClient env) h
    · rw [get_chat_client_fail env cid st hl (by simpa using hok)]
  · rw [get_chat_client_found env cid st c0 hl]

/-! Helper lemmas about `get_response`. -/

theorem get_response_success_history (c : ChatbotClient) (a : Nat)
    (input : String) (agent_call : String → AgentOutcome) (answer : String)
    (hagent : c.agent = some a)
    (hcall : agent_call (full_prompt c input) = AgentOutcome.success answer) :
    get_response c input agent_call =
      (answer,
       { c with chat_history :=
          c.chat_history ++ [⟨"user", input⟩, ⟨"assistant", answer⟩] }) := by
  simp [get_response, hagent, hcall]

theorem get_response_failure_history (c : ChatbotClient) (a : Nat)
    (input : String) (agent_call : String → AgentOutcome) (e : String)
    (hagent : c.agent = some a)
    (hcall : agent_call (full_prompt c input) = AgentOutcome.failure e) :
    get_response c input agent_call =
      ("Error processing your request: " ++ e,
       { c with chat_history :=
          c.chat_history ++
            [⟨"user", input⟩,
             ⟨"assistant", "Error processing your request: " ++ e⟩] }) := by
  simp [get_response, hagent, hcall]

theorem get_response_preserves_agent (c : ChatbotClient) (input : String)
    (agent_call : String → AgentOutcome) :
    (get_response c input agent_call).2.agent = c.agent := by
  rcases h : c.agent with _ | a
  · simp [get_response, h]
  · simp only [get_response, h]
    cases agent_call (full_prompt c input) <;> rfl

/-! Helper lemmas about iterated successful calls. -/

theorem run_success_calls_history (calls : List (String × String)) :
    ∀ (c : ChatbotClient) (a : Nat), c.agent = some a →
      (run_success_calls c calls).chat_history =
        c.chat_history ++ transcript calls := by
  induction calls with
  | nil => intro c a _; simp [run_success_calls, transcript]
  | cons p rest ih =>
      intro c a hagent
      obtain ⟨input, answer⟩ := p
      have hstep := get_response_success_history c a input
        (fun _ => AgentOutcome.success answer) answer hagent rfl
      simp only [run_success_calls]
      rw [ih _ a (by rw [hstep]; exact hagent), hstep]
      simp [transcript]

theorem transcript_length (calls : List (String × String)) :
    (transcript calls).length = 2 * calls.length := by
  induction calls with
  | nil => rfl
  | cons p rest ih =>
      obtain ⟨i, an⟩ := p
      simp [transcript, ih, Nat.mul_succ]

theorem transcript_pairs (calls : List (String × String)) :
    isUserAssistantPairs (transcript calls) = true := by
  induction calls with
  | nil => rfl
  | cons p rest ih =>
      obtain ⟨i, an⟩ := p
      simp [transcript, isUserAssistantPairs, ih]

/-- A failing `get_chat_client` call can only come from a missed lookup with
failing initialization, and it returns the registry unchanged. -/
theorem get_chat_client_error_cases (env : InitEnv) (cid : String)
    (st : Registry) (e : String)
    (h : (get_chat_client env cid st).1 = Except.error e) :
    get_chat_client env cid st = (Except.error e, st) ∧
    dictLookup st cid = none ∧ env.init_ok = false := by
  rcases hl : dictLookup st cid with _ | c0
  · by_cases hok : env.init_ok
    · rw [get_chat_client_fresh env cid st hl hok] at h
      exact absurd h (fun hh => Except.noConfusion hh)
    · have hok2 : env.init_ok = false := by simpa using hok
      have hf := get_chat_client_fail env cid st hl hok2
      rw [hf] at h
      obtain rfl : "Failed to initialize chatbot client" = e := by
        injection h
      exact ⟨hf, rfl, hok2⟩
  · rw [get_chat_client_found env cid st c0 hl] at h
    exact absurd h (fun hh => Except.noConfusion hh)

theorem cleanup_removes (cid : String) (st : Registry) :
    dictLookup (cleanup_chat_client cid st) cid = none := by
  rcases hl : dictLookup st cid with _ | c
  · simp [cleanup_chat_client, hl]
  · simp [cleanup_chat_client, hl, dictLookup_erase_self]

theorem disconnect_lookup (m : ConnectionManager) (cid : String) :
    dictLookup (m.disconnect cid).active_connections cid = none := by
  rcases hl : dictLookup m.active_connections cid with _ | ws
  · simp [ConnectionManager.disconnect, hl]
  · simp [ConnectionManager.disconnect, hl, dictLookup_erase_self]

theorem get_history_state (env : InitEnv) (host : String) (st : Registry) :
    (get_history env host st).2 = (get_chat_client env host st).2 := by
  cases hgc : get_chat_client env host st with
  | mk r st1 => cases r <;> simp [get_history, hgc]

theorem dictErase_insert {α : Type} (st : List (String × α)) (key : String)
    (v : α) : dictErase (dictInsert st key v) key = dictErase st key := by
  simp [dictInsert, dictErase, dictErase_erase]

theorem dictInsert_insert {α : Type} (st : List (String × α)) (key : String)
    (v w : α) : dictInsert (dictInsert st key v) key w = dictInsert st key w := by
  show (key, w) :: dictErase (dictInsert st key v) key = dictInsert st key w
  rw [dictErase_insert]
  rfl

/-! The claims. -/

/-- C1: calling `get_chat_client` twice in sequence for the same id without an
intervening `cleanup_chat_client` returns the identical client both times; the
second call performs no new construction (its result is independent of the
initialization environment) and leaves the registry unchanged. -/
theorem get_chat_client_idempotent (env1 env2 : InitEnv) (cid : String)
    (st : Registry) (c : ChatbotClient)
    (h : (get_chat_client env1 cid st).1 = Except.ok c) :
    get_chat_client env2 cid (get_chat_client env1 cid st).2 =
      (Except.ok c, (get_chat_client env1 cid st).2) :=
  get_chat_client_found env2 cid _ c (get_chat_client_stores env1 cid st c h)

/-- Witness for C1 at a concrete registry already holding a client; the second
call is run under a failing environment, so it cannot have constructed. -/
theorem get_chat_client_idempotent_witness :
    get_chat_client badEnv "c1"
        (get_chat_client demoEnv "c1" [("c1", demoClient)]).2 =
      (Except.ok demoClient,
       (get_chat_client demoEnv "c1" [("c1", demoClient)]).2) :=
  get_chat_client_idempotent demoEnv badEnv "c1" [("c1", demoClient)]
    demoClient rfl

/-- C2: after `n` successful `get_response` calls on a session that starts
with an empty history and an initialized agent, the history has length `2 * n`
and alternates user/assistant entries starting with user. -/
theorem respond_history_invariant (c : ChatbotClient) (a : Nat)
    (calls : List (String × String))
    (hagent : c.agent = some a) (hempty : c.chat_history = []) :
    (run_success_calls c calls).chat_history.length = 2 * calls.length ∧
      isUserAssistantPairs (run_success_calls c calls).chat_history = true := by
  have h := run_success_calls_history calls c a hagent
  rw [hempty] at h
  simp only [List.nil_append] at h
  rw [h]
  exact ⟨transcript_length calls, transcript_pairs calls⟩

/-- Witness for C2: two successful calls on a fresh client give four
alternating entries. -/
theorem respond_history_invariant_witness :
    (run_success_calls demoClient
        [("2+2", "4"), ("hi", "hello")]).chat_history.length =
      2 * [("2+2", "4"), ("hi", "hello")].length ∧
    isUserAssistantPairs
        (run_success_calls demoClient
          [("2+2", "4"), ("hi", "hello")]).chat_history = true :=
  respond_history_invariant demoClient 0 [("2+2", "4"), ("hi", "hello")]
    rfl rfl

/-- C3 counterexample: a `get_response` call whose agent call fails appends
two history entries (the user message and the assistant error message), not
exactly one. -/
theorem respond_failure_single_append_counterexample :
    (get_response demoClient "hi"
        (fun _ => AgentOutcome.failure "boom")).2.chat_history.length =
      demoClient.chat_history.length + 2 ∧
    demoClient.chat_history.length + 2 ≠ demoClient.chat_history.length + 1 :=
  ⟨rfl, by decide⟩

/-- C3 (amended): a `get_response` call whose agent call fails appends exactly
two entries, the user message followed by the assistant-role error message,
and returns that error message. -/
theorem respond_failure_appends_two (c : ChatbotClient) (a : Nat)
    (input e : String) (agent_call : String → AgentOutcome)
    (hagent : c.agent = some a)
    (hcall : agent_call (full_prompt c input) = AgentOutcome.failure e) :
    (get_response c input agent_call).2.chat_history =
      c.chat_history ++
        [⟨"user", input⟩,
         ⟨"assistant", "Error processing your request: " ++ e⟩] ∧
    (get_response c input agent_call).1 =
      "Error processing your request: " ++ e := by
  rw [get_response_failure_history c a input agent_call e hagent hcall]
  exact ⟨rfl, rfl⟩

/-- Witness for the amended C3 at a concrete failing call. -/
theorem respond_failure_appends_two_witness :
    (get_response demoClient "hi"
        (fun _ => AgentOutcome.failure "boom")).2.chat_history =
      demoClient.chat_history ++
        [⟨"user", "hi"⟩,
         ⟨"assistant", "Error processing your request: " ++ "boom"⟩] ∧
    (get_response demoClient "hi"
        (fun _ => AgentOutcome.failure "boom")).1 =
      "Error processing your request: " ++ "boom" :=
  respond_failure_appends_two demoClient 0 "hi" "boom"
    (fun _ => AgentOutcome.failure "boom") rfl rfl

/-- C4: when `get_chat_client` fails, the registry is unchanged, no entry
exists for the id, and a later call with a succeeding environment constructs
a fresh client with an empty history and stores it. -/
theorem get_chat_client_atomic_on_failure (env : InitEnv) (cid : String)
    (st : Registry) (e : String)
    (h : (get_chat_client env cid st).1 = Except.error e) :
    (get_chat_client env cid st).2 = st ∧
    dictLookup st cid = none ∧
    ∀ env2 : InitEnv, env2.init_ok = true →
      get_chat_client env2 cid st =
        (Except.ok (freshClient env2), dictInsert st cid (freshClient env2)) ∧
      (freshClient env2).chat_history = [] := by
  obtain ⟨hall, hl, _⟩ := get_chat_client_error_cases env cid st e h
  refine ⟨by rw [hall], hl, ?_⟩
  intro env2 h2
  exact ⟨get_chat_client_fresh env2 cid st hl h2, freshClient_history env2⟩

/-- Witness for C4: a failing construction for an unknown id leaves the empty
registry empty, and a succeeding retry constructs fresh. -/
theorem get_chat_client_atomic_on_failure_witness :
    (get_chat_client badEnv "c9" []).2 = ([] : Registry) ∧
    dictLookup ([] : Registry) "c9" = none ∧
    (get_chat_client demoEnv "c9" [] =
        (Except.ok (freshClient demoEnv),
         dictInsert ([] : Registry) "c9" (freshClient demoEnv)) ∧
      (freshClient demoEnv).chat_history = []) :=
  ⟨(get_chat_client_atomic_on_failure badEnv "c9" []
      "Failed to initialize chatbot client" rfl).1,
   (get_chat_client_atomic_on_failure badEnv "c9" []
      "Failed to initialize chatbot client" rfl).2.1,
   (get_chat_client_atomic_on_failure badEnv "c9" []
      "Failed to initialize chatbot client" rfl).2.2 demoEnv rfl⟩

/-- C5: `get_response` is a total function returning text: without an agent it
returns the fixed initialization error text, on agent success it returns the
answer text, and on agent failure it returns an error string embedding the
failure cause. -/
theorem respond_total_text (c : ChatbotClient) (input : String)
    (agent_call : String → AgentOutcome) :
    (c.agent = none →
      (get_response c input agent_call).1 =
        "Error: Agent not initialized. Please try again.") ∧
    (∀ (a : Nat) (answer : String), c.agent = some a →
      agent_call (full_prompt c input) = AgentOutcome.success answer →
      (get_response c input agent_call).1 = answer) ∧
    (∀ (a : Nat) (e : String), c.agent = some a →
      agent_call (full_prompt c input) = AgentOutcome.failure e →
      (get_response c input agent_call).1 =
        "Error processing your request: " ++ e) := by
  refine ⟨?_, ?_, ?_⟩
  · intro h
    simp [get_response, h]
  · intro a answer ha hc
    rw [get_response_success_history c a input agent_call answer ha hc]
  · intro a e ha hc
    rw [get_response_failure_history c a input agent_call e ha hc]

/-- Witness for C5 at a concrete failing call: the returned text embeds the
cause. -/
theorem respond_total_text_witness :
    (get_response demoClient "ping" (fun _ => AgentOutcome.failure "boom")).1 =
      "Error processing your request: " ++ "boom" :=
  (respond_total_text demoClient "ping"
      (fun _ => AgentOutcome.failure "boom")).2.2 0 "boom" rfl rfl

/-- C6 counterexample: with initialization failing for an unknown host, the
history endpoint observes a failure from `get_chat_client` yet answers status
200 with an empty history and leaves no record anywhere. -/
theorem failure_recording_counterexample :
    (get_chat_client badEnv "h1" []).1 =
      Except.error "Failed to initialize chatbot client" ∧
    (get_history badEnv "h1" []).1.1 = 200 ∧
    (get_history badEnv "h1" []).1.2 = ([] : List Message) ∧
    (get_history badEnv "h1" []).2 = ([] : Registry) :=
  ⟨rfl, rfl, rfl, rfl⟩

/-- C6 (amended): failures in the send and reset endpoints yield status 500
with an error body, and a failing agent call inside `get_response` is recorded
as an assistant-role history entry; but a `get_chat_client` failure inside the
history endpoint is swallowed, answering 200 with an empty history and
leaving no record. -/
theorem failure_recording_amended (env : InitEnv)
    (agent_call : String → AgentOutcome) (host msg e : String) (st : Registry)
    (h : (get_chat_client env host st).1 = Except.error e) :
    (send_message env agent_call host msg st).1 = (500, SendBody.error e) ∧
    (reset_chat env host st).1 = (500, ResetBody.error e) ∧
    (get_history env host st).1 = (200, ([] : List Message)) ∧
    (get_history env host st).2 = st ∧
    ∀ (c : ChatbotClient) (a : Nat) (input err : String)
        (acall : String → AgentOutcome), c.agent = some a →
      acall (full_prompt c input) = AgentOutcome.failure err →
      (get_response c input acall).2.chat_history =
        c.chat_history ++
          [⟨"user", input⟩,
           ⟨"assistant", "Error processing your request: " ++ err⟩] := by
  obtain ⟨hall, -, -⟩ := get_chat_client_error_cases env host st e h
  refine ⟨by simp [send_message, hall], by simp [reset_chat, hall],
    by simp [get_history, hall], by simp [get_history, hall], ?_⟩
  intro c a input err acall ha hc
  rw [get_response_failure_history c a input acall err ha hc]

/-- Witness for the amended C6 at a concrete failing environment. -/
theorem failure_recording_amended_witness :
    (send_message badEnv (fun _ => AgentOutcome.success "ok") "h1" "m" []).1 =
      (500, SendBody.error "Failed to initialize chatbot client") ∧
    (reset_chat badEnv "h1" []).1 =
      (500, ResetBody.error "Failed to initialize chatbot client") :=
  ⟨(failure_recording_amended badEnv (fun _ => AgentOutcome.success "ok")
      "h1" "m" "Failed to initialize chatbot client" [] rfl).1,
   (failure_recording_amended badEnv (fun _ => AgentOutcome.success "ok")
      "h1" "m" "Failed to initialize chatbot client" [] rfl).2.1⟩

/-- C7: after the `Closing` path of the WebSocket endpoint (disconnect then
cleanup) for an id, a push to that id delivers nothing, the registry holds no
session for the id, and a reconnect with the same id under a succeeding
environment constructs a brand-new session with an empty history. -/
theorem websocket_disconnect_cleanup (m : ConnectionManager) (st : Registry)
    (cid msg : String) (env : InitEnv) (henv : env.init_ok = true) :
    ConnectionManager.send_message
        (websocket_disconnect m st cid).1 msg cid = none ∧
    dictLookup (websocket_disconnect m st cid).2 cid = none ∧
    get_chat_client env cid (websocket_disconnect m st cid).2 =
      (Except.ok (freshClient env),
       dictInsert (websocket_disconnect m st cid).2 cid (freshClient env)) ∧
    (freshClient env).chat_history = [] := by
  have h1 : dictLookup (websocket_disconnect m st cid).2 cid = none := by
    simpa [websocket_disconnect] using cleanup_removes cid st
  refine ⟨?_, h1, get_chat_client_fresh env cid _ h1 henv,
    freshClient_history env⟩
  have h2 := disconnect_lookup m cid
  simp [websocket_disconnect, ConnectionManager.send_message, h2]

/-- Witness for C7 at a concrete connected client with history. -/
theorem websocket_disconnect_cleanup_witness :
    ConnectionManager.send_message
        (websocket_disconnect demoManager demoRegistry "c1").1 "ping" "c1" =
      none ∧
    dictLookup (websocket_disconnect demoManager demoRegistry "c1").2 "c1" =
      none ∧
    get_chat_client demoEnv "c1"
        (websocket_disconnect demoManager demoRegistry "c1").2 =
      (Except.ok (freshClient demoEnv),
       dictInsert (websocket_disconnect demoManager demoRegistry "c1").2 "c1"
         (freshClient demoEnv)) ∧
    (freshClient demoEnv).chat_history = [] :=
  websocket_disconnect_cleanup demoManager demoRegistry "c1" "ping" demoEnv rfl

/-- C8: resetting an existing session stores it back with an empty history and
all other fields unchanged (agent binding and system prompt identical, so the
next prompt composition is unchanged), and resetting again leaves the exact
same state. -/
theorem reset_chat_clears_only_history (env : InitEnv) (host input : String)
    (st : Registry) (c : ChatbotClient) (h : dictLookup st host = some c) :
    reset_chat env host st =
      ((200, ResetBody.success),
       dictInsert st host { c with chat_history := [] }) ∧
    ({ c with chat_history := ([] : List Message) } : ChatbotClient).agent =
      c.agent ∧
    ({ c with chat_history := ([] : List Message) } : ChatbotClient).system_prompt =
      c.system_prompt ∧
    full_prompt { c with chat_history := ([] : List Message) } input =
      full_prompt c input ∧
    reset_chat env host (dictInsert st host { c with chat_history := [] }) =
      ((200, ResetBody.success),
       dictInsert st host { c with chat_history := [] }) := by
  have h1 : reset_chat env host st =
      ((200, ResetBody.success),
       dictInsert st host { c with chat_history := [] }) := by
    simp [reset_chat, get_chat_client_found env host st c h]
  have hfound :
      dictLookup (dictInsert st host { c with chat_history := ([] : List Message) })
        host = some { c with chat_history := ([] : List Message) } :=
    dictLookup_insert_self st host _
  have h2 : reset_chat env host
        (dictInsert st host { c with chat_history := [] }) =
      ((200, ResetBody.success),
       dictInsert (dictInsert st host { c with chat_history := [] }) host
         { c with chat_history := ([] : List Message) }) := by
    simp [reset_chat, get_chat_client_found env host _ _ hfound]
  refine ⟨h1, rfl, rfl, rfl, ?_⟩
  rw [h2, dictInsert_insert]

/-- Witness for C8 at a concrete stored session with nonempty history. -/
theorem reset_chat_clears_only_history_witness :
    reset_chat demoEnv "c1" demoRegistry =
      ((200, ResetBody.success),
       dictInsert demoRegistry "c1" { demoHistClient with chat_history := [] }) ∧
    ({ demoHistClient with chat_history := ([] : List Message) } : ChatbotClient).agent =
      demoHistClient.agent ∧
    ({ demoHistClient with chat_history := ([] : List Message) } : ChatbotClient).system_prompt =
      demoHistClient.system_prompt ∧
    full_prompt { demoHistClient with chat_history := ([] : List Message) } "next" =
      full_prompt demoHistClient "next" ∧
    reset_chat demoEnv "c1"
        (dictInsert demoRegistry "c1" { demoHistClient with chat_history := [] }) =
      ((200, ResetBody.success),
       dictInsert demoRegistry "c1" { demoHistClient with chat_history := [] }) :=
  reset_chat_clears_only_history demoEnv "c1" "next" demoRegistry
    demoHistClient rfl

/-- C9: parameter extraction scans for balanced brace pairs left to right: the
parametric name with year and region placeholders yields exactly those two
parameters in order, and a name with no placeholders yields the empty list. -/
theorem extract_parameters_spec :
    extract_parameters "report/{year}/{region}" = ["year", "region"] ∧
    extract_parameters "plain" = [] :=
  ⟨rfl, rfl⟩

/-- C10: the HTTP endpoints key the registry by the requesting host; a history
or reset (or send) request leaves every session stored under any other key —
in particular a WebSocket path-derived key — unchanged, and the history
endpoint reads exactly the session stored under the host key. -/
theorem http_endpoints_key_by_host (env : InitEnv)
    (agent_call : String → AgentOutcome) (host k msg : String) (st : Registry)
    (hne : k ≠ host) :
    dictLookup (get_history env host st).2 k = dictLookup st k ∧
    dictLookup (reset_chat env host st).2 k = dictLookup st k ∧
    dictLookup (send_message env agent_call host msg st).2 k =
      dictLookup st k ∧
    ∀ c : ChatbotClient, dictLookup st host = some c →
      (get_history env host st).1 = (200, c.chat_history) := by
  have hframe := get_chat_client_frame env host k st hne
  refine ⟨?_, ?_, ?_, ?_⟩
  · rw [get_history_state]
    exact hframe
  · cases hgc : get_chat_client env host st with
    | mk r st1 =>
        rw [hgc] at hframe
        cases r with
        | ok c =>
            simp [reset_chat, hgc, dictLookup_insert_ne _ _ _ _ hne, hframe]
        | error e => simp [reset_chat, hgc, hframe]
  · cases hgc : get_chat_client env host st with
    | mk r st1 =>
        rw [hgc] at hframe
        cases r with
        | ok c =>
            simp [send_message, hgc, dictLookup_insert_ne _ _ _ _ hne, hframe]
        | error e => simp [send_message, hgc, hframe]
  · intro c hc
    simp [get_history, get_chat_client_found env host st c hc]

/-- Witness for C10: the host-keyed read and reset leave the session stored
under the distinct WebSocket key unchanged. -/
theorem http_endpoints_key_by_host_witness :
    dictLookup (get_history demoEnv "h1" demoRegistry).2 "c1" =
      dictLookup demoRegistry "c1" ∧
    dictLookup (reset_chat demoEnv "h1" demoRegistry).2 "c1" =
      dictLookup demoRegistry "c1" ∧
    dictLookup
        (send_message demoEnv (fun _ => AgentOutcome.success "ok") "h1" "m"
          demoRegistry).2 "c1" =
      dictLookup demoRegistry "c1" :=
  ⟨(http_endpoints_key_by_host demoEnv (fun _ => AgentOutcome.success "ok")
      "h1" "c1" "m" demoRegistry (by decide)).1,
   (http_endpoints_key_by_host demoEnv (fun _ => AgentOutcome.success "ok")
      "h1" "c1" "m" demoRegistry (by decide)).2.1,
   (http_endpoints_key_by_host demoEnv (fun _ => AgentOutcome.success "ok")
      "h1" "c1" "m" demoRegistry (by decide)).2.2.1⟩

end MCPGateway
